import Mathlib

/-!
Shallow embedding of `src/pay-api/src/pay_api/models/credit.py` (the `Credit`
SQLAlchemy model and its `CreditSchema`), together with the creation and
credit-application operations that the specification describes but that are
not part of this fragment's source (those are modelled from the spec and
marked as such).

Monetary values are embedded as exact rationals (ℚ); timestamps as abstract
instants (Int).  A database state is a list of credit rows.
-/

/-- One row of the `credits` table.  Fields follow the column declarations of
the `Credit` class: nullable columns become `Option`, `Boolean` becomes
`Bool`, monetary `Float` columns are embedded as ℚ, `DateTime` as an abstract
`Int` instant. -/
structure Credit where
  id : Int
  cfs_identifier : Option String
  cfs_site : Option String
  is_credit_memo : Bool
  amount : ℚ
  remaining_amount : ℚ
  details : Option String
  created_on : Option Int
  created_invoice_id : Option Int
  account_id : Option Int
deriving Repr, DecidableEq

/-- Errors surfaced by the operations of this fragment.
`multipleResultsFound` is SQLAlchemy's error raised by `one_or_none` when the
query matches more than one row; `validationError` and
`insufficientCreditError` are the error outcomes named by the spec for the
creation and application contracts. -/
inductive PayError where
  | multipleResultsFound
  | validationError
  | insufficientCreditError
deriving Repr, DecidableEq

/-- The row predicate of
`cls.query.filter_by(cfs_identifier=cfs_identifier).filter_by(is_credit_memo=credit_memo)`. -/
def matchesCfs (cfs_identifier : String) (credit_memo : Bool) (c : Credit) : Bool :=
  c.cfs_identifier == some cfs_identifier && c.is_credit_memo == credit_memo

/-- `Credit.find_by_cfs_identifier(cfs_identifier, credit_memo=False)`:
filters by the `(cfs_identifier, is_credit_memo)` pair and finishes with
`one_or_none()`, which yields `None` on zero rows, the row on exactly one,
and raises `MultipleResultsFound` on two or more. -/
def find_by_cfs_identifier (dbState : List Credit) (cfs_identifier : String)
    (credit_memo : Bool := false) : Except PayError (Option Credit) :=
  match dbState.filter (matchesCfs cfs_identifier credit_memo) with
  | [] => Except.ok none
  | [c] => Except.ok (some c)
  | _ => Except.error PayError.multipleResultsFound

/-- SQL `SUM` over a column: `NULL` (here `none`) on an empty row set,
otherwise the sum of the values. -/
def sqlSum (l : List ℚ) : Option ℚ :=
  match l with
  | [] => none
  | _ => some l.sum

/-- SQL `COALESCE(x, d)`. -/
def coalesce (x : Option ℚ) (d : ℚ) : ℚ :=
  x.getD d

/-- `Credit.find_remaining_by_account_id(account_id)`:
`SELECT coalesce(sum(remaining_amount), 0) ... WHERE account_id = :account_id`,
with the scalar result converted through `Decimal(str(...))` on read (the
identity on the exact values of this embedding). -/
def find_remaining_by_account_id (dbState : List Credit) (account_id : Int) : ℚ :=
  coalesce
    (sqlSum ((dbState.filter (fun c => c.account_id == some account_id)).map
      (fun c => c.remaining_amount))) 0

/-- Insertion-time value of the `created_on` column: the Python-side default
`lambda: datetime.now(tz=timezone.utc)` fires only when no value was supplied
for the column. -/
def created_on_at_insert (supplied : Option Int) (now_utc : Int) : Option Int :=
  match supplied with
  | none => some now_utc
  | some t => some t

/-- Modelled from the spec: the creation flow (the service layer calling the
constructor and `BaseModel.save`, neither under this fragment's source) —
"persist a new record with `remaining_amount = amount`. Fails with
`ValidationError` if `amount < 0`"; `created_on` follows the column default
when not supplied. -/
def Credit.create (id : Int) (account_id : Option Int) (amount : ℚ)
    (is_credit_memo : Bool) (cfs_identifier : Option String)
    (cfs_site : Option String) (details : Option String)
    (created_invoice_id : Option Int) (created_on : Option Int)
    (now_utc : Int) : Except PayError Credit :=
  if amount < 0 then Except.error PayError.validationError
  else Except.ok
    { id := id
      cfs_identifier := cfs_identifier
      cfs_site := cfs_site
      is_credit_memo := is_credit_memo
      amount := amount
      remaining_amount := amount
      details := details
      created_on := created_on_at_insert created_on now_utc
      created_invoice_id := created_invoice_id
      account_id := account_id }

/-- Modelled from the spec: the credit-application operation (not under this
fragment's source) — "decrements `remaining_amount` by `amount_to_apply`;
fails with `InsufficientCreditError` if `amount_to_apply > remaining_amount`". -/
def Credit.apply (c : Credit) (amount_to_apply : ℚ) (_invoice_id : Int) :
    Except PayError Credit :=
  if amount_to_apply > c.remaining_amount then Except.error PayError.insufficientCreditError
  else Except.ok { c with remaining_amount := c.remaining_amount - amount_to_apply }

/-- The credit-ledger invariant of the spec: `0 ≤ remaining_amount ≤ amount`. -/
def Credit.inv (c : Credit) : Prop :=
  0 ≤ c.remaining_amount ∧ c.remaining_amount ≤ c.amount

/-- The `include_properties` allow-list of `Credit.__mapper_args__`. -/
def include_properties : List String :=
  ["id", "account_id", "amount", "cfs_identifier", "cfs_site", "created_on",
   "details", "is_credit_memo", "remaining_amount", "created_invoice_id"]

/-- The column attributes declared on the `Credit` class, in declaration
order. -/
def creditTableColumns : List String :=
  ["id", "cfs_identifier", "cfs_site", "is_credit_memo", "amount",
   "remaining_amount", "details", "created_on", "created_invoice_id",
   "account_id"]

/-- The fields the mapper maps for a given physical table column set: with
`include_properties`, SQLAlchemy maps exactly the declared properties that
are listed, ignoring any other columns present on the table. -/
def mapped_fields (tableColumns : List String) : List String :=
  tableColumns.filter (fun s => decide (s ∈ include_properties))

/-- The field set serialized by `CreditSchema`: a `SQLAlchemyAutoSchema` with
`model = Credit`, so it derives its fields from the mapped properties of the
model. -/
def serialized_fields (tableColumns : List String) : List String :=
  mapped_fields tableColumns

/-- A sample non-credit-memo credit row used by concrete witnesses. -/
def sampleCredit : Credit :=
  { id := 1
    cfs_identifier := some "CFS-1"
    cfs_site := some "SITE-A"
    is_credit_memo := false
    amount := 100
    remaining_amount := 60
    details := none
    created_on := some 0
    created_invoice_id := none
    account_id := some 5 }

/-- A sample credit-memo row sharing `cfs_identifier` with `sampleCredit`. -/
def memoCredit : Credit :=
  { id := 2
    cfs_identifier := some "CFS-1"
    cfs_site := some "SITE-A"
    is_credit_memo := true
    amount := 30
    remaining_amount := 30
    details := some "memo"
    created_on := some 0
    created_invoice_id := none
    account_id := some 5 }

/-- SQL aggregation helper: `COALESCE(SUM(col), 0)` equals the plain sum of
the column values, also on an empty row set. -/
theorem coalesce_sqlSum (l : List ℚ) : coalesce (sqlSum l) 0 = l.sum := by
  cases l with
  | nil => rfl
  | cons a t => rfl

/-- Claim C2: `find_remaining_by_account_id` returns exactly the sum of
`remaining_amount` over the rows whose `account_id` equals the argument, and
returns 0 when no such rows exist. -/
theorem find_remaining_exact_sum (dbState : List Credit) (account_id : Int) :
    find_remaining_by_account_id dbState account_id
      = ((dbState.filter (fun c => c.account_id == some account_id)).map
          (fun c => c.remaining_amount)).sum
    ∧ (dbState.filter (fun c => c.account_id == some account_id) = [] →
        find_remaining_by_account_id dbState account_id = 0) := by
  constructor
  · exact coalesce_sqlSum _
  · intro h
    simp [find_remaining_by_account_id, h, sqlSum, coalesce]

/-- Closed witness for claim C2: account 5 holds rows with remaining amounts
60 and 30, and account 7 holds none. -/
theorem find_remaining_exact_sum_witness :
    find_remaining_by_account_id [sampleCredit, memoCredit] 5
      = (([sampleCredit, memoCredit].filter
          (fun c => c.account_id == some (5 : Int))).map
          (fun c => c.remaining_amount)).sum
    ∧ find_remaining_by_account_id [sampleCredit, memoCredit] 7 = 0 :=
  ⟨(find_remaining_exact_sum [sampleCredit, memoCredit] 5).1,
   (find_remaining_exact_sum [sampleCredit, memoCredit] 7).2 (by decide)⟩

/-- Claim C3: `find_by_cfs_identifier` yields an absent result (`ok none`,
not an exception) when no row matches the `(cfs_identifier, is_credit_memo)`
pair, and the unique matching row when exactly one matches. -/
theorem find_by_cfs_at_most_one (dbState : List Credit) (cfs : String) (memo : Bool) :
    (dbState.filter (matchesCfs cfs memo) = [] →
      find_by_cfs_identifier dbState cfs memo = Except.ok none)
    ∧ ∀ c, dbState.filter (matchesCfs cfs memo) = [c] →
      find_by_cfs_identifier dbState cfs memo = Except.ok (some c) := by
  constructor
  · intro h
    simp [find_by_cfs_identifier, h]
  · intro c h
    simp [find_by_cfs_identifier, h]

/-- Closed witness for claim C3: lookup in an empty table is `ok none`;
lookup of the unique non-memo row with identifier CFS-1 returns it. -/
theorem find_by_cfs_at_most_one_witness :
    find_by_cfs_identifier [] "CFS-9" false = Except.ok none
    ∧ find_by_cfs_identifier [sampleCredit, memoCredit] "CFS-1" false
        = Except.ok (some sampleCredit) :=
  ⟨(find_by_cfs_at_most_one [] "CFS-9" false).1 rfl,
   (find_by_cfs_at_most_one [sampleCredit, memoCredit] "CFS-1" false).2
     sampleCredit (by decide)⟩

/-- Claim C9: when two or more rows share the `(cfs_identifier,
is_credit_memo)` pair, `one_or_none` raises `MultipleResultsFound` instead of
returning a row or an absent result. -/
theorem find_by_cfs_multiple_raises (dbState : List Credit) (cfs : String) (memo : Bool)
    (h : 2 ≤ (dbState.filter (matchesCfs cfs memo)).length) :
    find_by_cfs_identifier dbState cfs memo
      = Except.error PayError.multipleResultsFound := by
  cases hf : dbState.filter (matchesCfs cfs memo) with
  | nil => rw [hf] at h; simp at h
  | cons a t =>
    cases t with
    | nil => rw [hf] at h; simp at h
    | cons b t2 => simp [find_by_cfs_identifier, hf]

/-- Closed witness for claim C9: two rows with the same pair make the lookup
raise. -/
theorem find_by_cfs_multiple_raises_witness :
    find_by_cfs_identifier [sampleCredit, sampleCredit] "CFS-1" false
      = Except.error PayError.multipleResultsFound :=
  find_by_cfs_multiple_raises [sampleCredit, sampleCredit] "CFS-1" false (by decide)

/-- Claim C10: calling `find_by_cfs_identifier` without the `credit_memo`
argument defaults it to `False`, so any returned row is a non-credit-memo row
with the requested identifier, whatever else the table holds. -/
theorem find_by_cfs_default_excludes_memo (dbState : List Credit) (cfs : String)
    (c : Credit) (h : find_by_cfs_identifier dbState cfs = Except.ok (some c)) :
    c.is_credit_memo = false ∧ c.cfs_identifier = some cfs := by
  have hmem : c ∈ dbState.filter (matchesCfs cfs false) := by
    unfold find_by_cfs_identifier at h
    cases hf : dbState.filter (matchesCfs cfs false) with
    | nil => rw [hf] at h; simp at h
    | cons a t =>
      cases t with
      | nil =>
        rw [hf] at h
        simp only [Except.ok.injEq, Option.some.injEq] at h
        rw [h]
        exact List.mem_singleton_self c
      | cons b t2 => rw [hf] at h; simp at h
  have hmatch := (List.mem_filter.mp hmem).2
  unfold matchesCfs at hmatch
  simp only [Bool.and_eq_true, beq_iff_eq] at hmatch
  exact ⟨hmatch.2, hmatch.1⟩

/-- Closed witness for claim C10: a default-argument lookup on a table that
holds both a memo and a non-memo row for CFS-1 returns the non-memo row. -/
theorem find_by_cfs_default_excludes_memo_witness :
    sampleCredit.is_credit_memo = false ∧ sampleCredit.cfs_identifier = some "CFS-1" :=
  find_by_cfs_default_excludes_memo [memoCredit, sampleCredit] "CFS-1" sampleCredit
    rfl

/-- Claim C5: applying more than `remaining_amount` fails with
`InsufficientCreditError` and produces no modified record; applying at most
`remaining_amount` returns the record with `remaining_amount` decremented by
exactly the applied amount and every other field unchanged. -/
theorem credit_apply_spec (c : Credit) (amt : ℚ) (inv_id : Int) :
    (c.remaining_amount < amt →
      Credit.apply c amt inv_id = Except.error PayError.insufficientCreditError)
    ∧ (amt ≤ c.remaining_amount →
      Credit.apply c amt inv_id
        = Except.ok { c with remaining_amount := c.remaining_amount - amt }) := by
  constructor
  · intro h
    unfold Credit.apply
    rw [if_pos h]
  · intro h
    unfold Credit.apply
    rw [if_neg (not_lt.mpr h)]

/-- Closed witness for claim C5, the spec scenario: a credit with remaining
100 accepts an application of 40 (remaining becomes 60), and the resulting
credit (remaining 60) rejects an application of 70. -/
theorem credit_apply_spec_witness :
    Credit.apply { sampleCredit with remaining_amount := 100 } 40 7
      = Except.ok { sampleCredit with remaining_amount := (100 : ℚ) - 40 }
    ∧ Credit.apply sampleCredit 70 7
      = Except.error PayError.insufficientCreditError :=
  ⟨(credit_apply_spec { sampleCredit with remaining_amount := 100 } 40 7).2
     (by norm_num),
   (credit_apply_spec sampleCredit 70 7).1 (by norm_num [sampleCredit])⟩

/-- Claim C6: creation with a non-negative amount persists a record whose
`remaining_amount` equals `amount`; creation with a negative amount fails
with `ValidationError` and persists nothing. -/
theorem credit_create_spec (id : Int) (aid : Option Int) (amount : ℚ) (memo : Bool)
    (cfs : Option String) (site : Option String) (det : Option String)
    (invi : Option Int) (con : Option Int) (now : Int) :
    (0 ≤ amount →
      Credit.create id aid amount memo cfs site det invi con now
        = Except.ok
          { id := id
            cfs_identifier := cfs
            cfs_site := site
            is_credit_memo := memo
            amount := amount
            remaining_amount := amount
            details := det
            created_on := created_on_at_insert con now
            created_invoice_id := invi
            account_id := aid })
    ∧ (amount < 0 →
      Credit.create id aid amount memo cfs site det invi con now
        = Except.error PayError.validationError) := by
  constructor
  · intro h
    unfold Credit.create
    rw [if_neg (not_lt.mpr h)]
  · intro h
    unfold Credit.create
    rw [if_pos h]

/-- Closed witness for claim C6: creating with amount 100 succeeds with
`remaining_amount = 100`; creating with amount -1 is rejected. -/
theorem credit_create_spec_witness :
    Credit.create 3 (some 5) 100 false (some "CFS-2") none none none none 0
      = Except.ok
        { id := 3
          cfs_identifier := some "CFS-2"
          cfs_site := none
          is_credit_memo := false
          amount := 100
          remaining_amount := 100
          details := none
          created_on := created_on_at_insert none 0
          created_invoice_id := none
          account_id := some 5 }
    ∧ Credit.create 4 (some 5) (-1) false none none none none none 0
      = Except.error PayError.validationError :=
  ⟨(credit_create_spec 3 (some 5) 100 false (some "CFS-2") none none none none 0).1
     (by norm_num),
   (credit_create_spec 4 (some 5) (-1) false none none none none none 0).2
     (by norm_num)⟩

/-- Claim C1: every operation of this fragment keeps the ledger invariant
`0 ≤ remaining_amount ≤ amount` — a successful creation establishes it, and a
successful application of a non-negative amount preserves it (the two query
operations read without mutating any record). -/
theorem credit_invariant_ops :
    (∀ (id : Int) (aid : Option Int) (amount : ℚ) (memo : Bool)
        (cfs site det : Option String) (invi con : Option Int) (now : Int)
        (c : Credit),
      Credit.create id aid amount memo cfs site det invi con now = Except.ok c →
        c.inv)
    ∧ (∀ (c : Credit) (amt : ℚ) (inv_id : Int) (c' : Credit),
      c.inv → 0 ≤ amt → Credit.apply c amt inv_id = Except.ok c' → c'.inv) := by
  constructor
  · intro id aid amount memo cfs site det invi con now c h
    unfold Credit.create at h
    split at h
    · exact absurd h (by simp)
    · rename_i hneg
      simp only [Except.ok.injEq] at h
      subst h
      exact ⟨le_of_not_lt hneg, le_refl _⟩
  · intro c amt inv_id c' hinv hamt h
    unfold Credit.apply at h
    split at h
    · exact absurd h (by simp)
    · rename_i hgt
      simp only [Except.ok.injEq] at h
      subst h
      have hle : amt ≤ c.remaining_amount := not_lt.mp hgt
      refine ⟨?_, ?_⟩
      · show (0 : ℚ) ≤ c.remaining_amount - amt
        linarith
      · show c.remaining_amount - amt ≤ c.amount
        linarith [hinv.2]

/-- Closed witness for claim C1: the record created with amount 100 satisfies
the invariant, and so does the result of applying 40 to a credit with amount
100 and remaining 60. -/
theorem credit_invariant_ops_witness :
    Credit.inv
      { id := 3
        cfs_identifier := none
        cfs_site := none
        is_credit_memo := false
        amount := 100
        remaining_amount := 100
        details := none
        created_on := created_on_at_insert none 0
        created_invoice_id := none
        account_id := some 5 }
    ∧ Credit.inv { sampleCredit with
        remaining_amount := sampleCredit.remaining_amount - 40 } :=
  ⟨credit_invariant_ops.1 3 (some 5) 100 false none none none none none 0 _ rfl,
   credit_invariant_ops.2 sampleCredit 40 7 _
     (by constructor <;> norm_num [sampleCredit]) (by norm_num) rfl⟩

/-- Claim C7: the mapped (and hence serialized) field set is the exact
ten-name allow-list of the persisted attributes, and it does not change when
extra columns outside the allow-list are transiently present on the table. -/
theorem credit_serialized_allow_list :
    (serialized_fields creditTableColumns).toFinset = include_properties.toFinset
    ∧ include_properties.length = 10
    ∧ ∀ extras : List String, (∀ e ∈ extras, e ∉ include_properties) →
        serialized_fields (creditTableColumns ++ extras)
          = serialized_fields creditTableColumns := by
  refine ⟨by decide, by decide, ?_⟩
  intro extras hex
  unfold serialized_fields mapped_fields
  rw [List.filter_append]
  have hnil : extras.filter (fun s => decide (s ∈ include_properties)) = [] := by
    rw [List.filter_eq_nil_iff]
    intro a ha
    simp only [decide_eq_true_eq]
    exact hex a ha
  rw [hnil, List.append_nil]

/-- Closed witness for claim C7: a stray column left by a failed deploy does
not change the serialized field set. -/
theorem credit_serialized_allow_list_witness :
    serialized_fields (creditTableColumns ++ ["legacy_temp_column"])
      = serialized_fields creditTableColumns :=
  credit_serialized_allow_list.2.2 ["legacy_temp_column"] (by decide)

/-- Claim C8: a credit created without an explicit `created_on` gets the
current UTC time of the insertion as its `created_on`; a credit created with
an explicit `created_on` keeps the supplied value. -/
theorem created_on_default_spec :
    (∀ (id : Int) (aid : Option Int) (amount : ℚ) (memo : Bool)
        (cfs site det : Option String) (invi : Option Int) (now : Int)
        (c : Credit),
      Credit.create id aid amount memo cfs site det invi none now = Except.ok c →
        c.created_on = some now)
    ∧ (∀ (id : Int) (aid : Option Int) (amount : ℚ) (memo : Bool)
        (cfs site det : Option String) (invi : Option Int) (t now : Int)
        (c : Credit),
      Credit.create id aid amount memo cfs site det invi (some t) now
        = Except.ok c → c.created_on = some t) := by
  constructor
  · intro id aid amount memo cfs site det invi now c h
    unfold Credit.create at h
    split at h
    · exact absurd h (by simp)
    · simp only [Except.ok.injEq] at h
      subst h
      rfl
  · intro id aid amount memo cfs site det invi t now c h
    unfold Credit.create at h
    split at h
    · exact absurd h (by simp)
    · simp only [Except.ok.injEq] at h
      subst h
      rfl

/-- Closed witness for claim C8: creation at time 99 without a timestamp
yields `created_on = 99`; creation with explicit timestamp 42 keeps 42. -/
theorem created_on_default_spec_witness :
    ({ id := 7
       cfs_identifier := none
       cfs_site := none
       is_credit_memo := false
       amount := 10
       remaining_amount := 10
       details := none
       created_on := created_on_at_insert none 99
       created_invoice_id := none
       account_id := none } : Credit).created_on = some 99
    ∧ ({ id := 8
         cfs_identifier := none
         cfs_site := none
         is_credit_memo := false
         amount := 10
         remaining_amount := 10
         details := none
         created_on := created_on_at_insert (some 42) 99
         created_invoice_id := none
         account_id := none } : Credit).created_on = some 42 :=
  ⟨created_on_default_spec.1 7 none 10 false none none none none 99 _ rfl,
   created_on_default_spec.2 8 none 10 false none none none none 42 99 _ rfl⟩
